import Mathlib

/-!
Shallow embedding of the wind-coefficient and wind-force subsystem of
pyMarineCybernetics (src/util/wind/wind_coefficients.py and
src/util/wind/wind_forces.py).  Machine floats are modelled by the real
numbers; the Isherwood breakpoint tables and the Blendermann coefficient
table carry exact rational entries.
-/

/-- Embedding of numpy's one-dimensional linear interpolation np.interp,
for a list of (x, y) sample points with increasing x: values below the
first sample point clamp to its y, values above the last clamp to its y,
and values in between are linearly interpolated on the bracketing
segment. -/
def interp {α : Type} [LinearOrderedField α] (x : α) : List (α × α) → α
  | [] => 0
  | [(_, y0)] => y0
  | (x0, y0) :: (x1, y1) :: rest =>
    if x ≤ x0 then y0
    else if x ≤ x1 then y0 + (y1 - y0) * (x - x0) / (x1 - x0)
    else interp x ((x1, y1) :: rest)

/-- The Isherwood surge regression table: rows keyed by angle of attack
in degrees, holding the coefficients A0..A6 (wind_coefficients.py,
surge_coefficients). -/
def surge_coefficients : List (ℚ × List ℚ) :=
  [(0, [2.152, -5.00, 0.243, -0.164, 0, 0, 0]),
   (10, [1.714, -3.33, 0.145, -0.121, 0, 0, 0]),
   (20, [1.818, -3.97, 0.211, -0.143, 0, 0, 0.033]),
   (30, [1.965, -4.81, 0.243, -0.154, 0, 0, 0.041]),
   (40, [2.333, -5.99, 0.247, -0.190, 0, 0, 0.042]),
   (50, [1.726, -6.54, 0.189, -0.173, 0.348, 0, 0.048]),
   (60, [0.913, -4.68, 0, -0.104, 0.482, 0, 0.052]),
   (70, [0.457, -2.88, 0, -0.068, 0.346, 0, 0.043]),
   (80, [0.341, -0.91, 0, -0.031, 0, 0, 0.032]),
   (90, [0.355, 0, 0, 0, -0.247, 0, 0.018]),
   (100, [0.601, 0, 0, 0, -0.372, 0, -0.020]),
   (110, [0.651, 1.29, 0, 0, -0.582, 0, -0.031]),
   (120, [0.564, 2.54, 0, 0, -0.748, 0, -0.024]),
   (130, [-0.142, 3.58, 0, 0.047, -0.700, 0, -0.028]),
   (140, [-0.677, 3.64, 0, 0.069, -0.529, 0, -0.032]),
   (150, [-0.723, 3.14, 0, 0.064, -0.475, 0, -0.032]),
   (160, [-2.148, 2.56, 0, 0.081, 0, 1.27, -0.027]),
   (170, [-2.707, 3.97, -0.175, 0.126, 0, 1.81, 0]),
   (180, [-2.529, 3.76, -0.174, 0.128, 0, 1.55, 0])]

/-- The Isherwood sway regression table: rows keyed by angle of attack
in degrees, holding the coefficients B0..B6 (wind_coefficients.py,
sway_coefficients). -/
def sway_coefficients : List (ℚ × List ℚ) :=
  [(0, [0, 0, 0, 0, 0, 0, 0]),
   (10, [0.096, 0.22, 0, 0, 0, 0, 0]),
   (20, [0.176, 0.71, 0, 0, 0, 0, 0]),
   (30, [0.225, 1.38, 0, 0.023, 0, -0.29, 0]),
   (40, [0.329, 1.82, 0, 0.043, 0, -0.59, 0]),
   (50, [1.164, 1.26, 0.121, 0, -0.242, -0.95, 0]),
   (60, [1.163, 0.96, 0.101, 0, -0.177, -0.88, 0]),
   (70, [0.916, 0.53, 0.069, 0, 0, -0.65, 0]),
   (80, [0.844, 0.55, 0.082, 0, 0, -0.54, 0]),
   (90, [0.889, 0, 0.138, 0, 0, -0.66, 0]),
   (100, [0.799, 0, 0.155, 0, 0, -0.55, 0]),
   (110, [0.797, 0, 0.151, 0, 0, -0.55, 0]),
   (120, [0.996, 0, 0.184, 0, -0.212, -0.66, 0.34]),
   (130, [1.014, 0, 0.191, 0, -0.280, -0.69, 0.44]),
   (140, [0.784, 0, 0.166, 0, -0.209, -0.53, 0.38]),
   (150, [0.536, 0, 0.176, -0.029, -0.163, 0, 0.27]),
   (160, [0.251, 0, 0.106, -0.022, 0, 0, 0]),
   (170, [0.125, 0, 0.046, -0.012, 0, 0, 0]),
   (180, [0, 0, 0, 0, 0, 0, 0])]

/-- The Isherwood yaw regression table: rows keyed by angle of attack
in degrees, holding the coefficients C0..C5 (wind_coefficients.py,
yaw_coefficients). -/
def yaw_coefficients : List (ℚ × List ℚ) :=
  [(0, [0, 0, 0, 0, 0, 0]),
   (10, [0.0596, 0.061, 0, 0, 0, -0.074]),
   (20, [0.1106, 0.204, 0, 0, 0, -0.170]),
   (30, [0.2258, 0.245, 0, 0, 0, -0.380]),
   (40, [0.2017, 0.457, 0, 0.0067, 0, -0.472]),
   (50, [0.1759, 0.573, 0, 0.0118, 0, -0.523]),
   (60, [0.1925, 0.480, 0, 0.0115, 0, -0.546]),
   (70, [0.2133, 0.315, 0, 0.0081, 0, -0.526]),
   (80, [0.1827, 0.254, 0, 0.0053, 0, -0.443]),
   (90, [0.2627, 0, 0, 0, 0, -0.508]),
   (100, [0.2102, 0, -0.0195, 0, 0.0335, -0.492]),
   (110, [0.1567, 0, -0.0258, 0, 0.0497, -0.457]),
   (120, [0.0801, 0, -0.0311, 0, 0.0740, -0.396]),
   (130, [-0.0189, 0, -0.0488, 0.0101, 0.1128, -0.420]),
   (140, [0.0256, 0, -0.0422, 0.0100, 0.0889, -0.463]),
   (150, [0.0552, 0, -0.0381, 0.0109, 0.0689, -0.476]),
   (160, [0.0881, 0, -0.0306, 0.0091, 0.0366, -0.415]),
   (170, [0.0851, 0, -0.0122, 0.0025, 0, -0.220]),
   (180, [0, 0, 0, 0, 0, 0])]

/-- Column extraction from a breakpoint table, mirroring the numpy
column slices table[:,0] (the angles) and table[:,i+1] (the i-th
coefficient) that the source passes to np.interp. -/
def column (table : List (ℚ × List ℚ)) (i : ℕ) : List (ℚ × ℚ) :=
  table.map (fun r => (r.1, r.2.getD i 0))

/-- A value v lies strictly between a and b (in either order). -/
def strictlyBetween (a b v : ℚ) : Prop :=
  (a < v ∧ v < b) ∨ (b < v ∧ v < a)

/-- A value v lies between a and b inclusive (in either order). -/
def weaklyBetween (a b v : ℚ) : Prop :=
  (a ≤ v ∧ v ≤ b) ∨ (b ≤ v ∧ v ≤ a)

/-- One row of the Blendermann coefficient table
(wind_coefficients.py, blendermann): vessel-type name, transverse drag
coefficient CDt, longitudinal drag coefficients CDl_0 (bow-on) and
CDl_pi (stern-on), cross-force parameter delta, rolling-moment factor
kappa. -/
structure BlendermannRow where
  name : String
  CDt : ℚ
  CDl_0 : ℚ
  CDl_pi : ℚ
  delta : ℚ
  kappa : ℚ
deriving DecidableEq

/-- The 17-entry Blendermann coefficient table (wind_coefficients.py,
coefficient_table).  The source writes the kappa entry of the row
named Container ship, loaded as the two elements 1 and 4 (a comma
where the decimal point was intended), so the Python unpacking
row[5] reads kappa = 1 there; the trailing 4 is never read. -/
def coefficient_table : List BlendermannRow :=
  [⟨"Car carrier", 0.95, 0.55, 0.60, 0.80, 1.2⟩,
   ⟨"Cargo vessel, loaded", 0.85, 0.65, 0.55, 0.40, 1.7⟩,
   ⟨"Cargo vessel, container on deck", 0.85, 0.55, 0.50, 0.40, 1.4⟩,
   ⟨"Container ship, loaded", 0.90, 0.55, 0.55, 0.40, 1⟩,
   ⟨"Destroyer", 0.85, 0.60, 0.65, 0.65, 1.1⟩,
   ⟨"Diving support vessel", 0.90, 0.60, 0.80, 0.55, 1.7⟩,
   ⟨"Drilling vessel", 1.00, 0.85, 0.92, 0.10, 1.7⟩,
   ⟨"Ferry", 0.90, 0.45, 0.50, 0.80, 1.1⟩,
   ⟨"Fishing vessel", 0.95, 0.70, 0.70, 0.40, 1.1⟩,
   ⟨"Liquefied natural gas tanker", 0.70, 0.60, 0.65, 0.50, 1.1⟩,
   ⟨"Offshore supply vessel", 0.90, 0.55, 0.80, 0.55, 1.2⟩,
   ⟨"Passenger liner", 0.90, 0.40, 0.40, 0.80, 1.2⟩,
   ⟨"Research vessel", 0.85, 0.55, 0.65, 0.60, 1.4⟩,
   ⟨"Speed boat", 0.90, 0.55, 0.60, 0.60, 1.1⟩,
   ⟨"Tanker, loaded", 0.70, 0.90, 0.55, 0.40, 3.1⟩,
   ⟨"Tanker, in ballast", 0.70, 0.75, 0.55, 0.40, 2.2⟩,
   ⟨"Tender", 0.85, 0.55, 0.55, 0.65, 1.1⟩]

/-- The row-search loop of wind_coefficients.blendermann: the first row
whose name equals the requested vessel type, if any. -/
def lookupRow (vessel_type : String) : Option BlendermannRow :=
  coefficient_table.find? (fun row => row.name == vessel_type)

/-- The coefficient-selection enumeration (enumerations.py,
CoefficientType). -/
inductive CoefficientType where
  | blendermann
  | hughes
  | isherwood
deriving DecidableEq

noncomputable section

/-- Casting a list of rational sample points to real sample points. -/
def ratPoints (pts : List (ℚ × ℚ)) : List (ℝ × ℝ) :=
  pts.map (fun p => ((p.1 : ℝ), (p.2 : ℝ)))

/-- The per-angle interpolated coefficient vectors A (7 surge entries),
B (7 sway entries) and C (6 yaw entries) that the source builds in its
interpolation loop (wind_coefficients.py, isherwood, the loop over
np.arange(1, 8)). -/
def isherwoodABC (angle_deg : ℝ) : List ℝ × List ℝ × List ℝ :=
  ((List.range 7).map (fun i => interp angle_deg (ratPoints (column surge_coefficients i))),
   (List.range 7).map (fun i => interp angle_deg (ratPoints (column sway_coefficients i))),
   (List.range 6).map (fun i => interp angle_deg (ratPoints (column yaw_coefficients i))))

/-- Embedding of wind_coefficients.isherwood: interpolate the three
regression tables at the angle of attack (converted from radians to
degrees as in math.degrees) and assemble the surge, sway and yaw wind
coefficients. -/
def isherwood (frontal_area lateral_area superstructure_area Loa breadth S s_L masts
    angle_of_attack : ℝ) : ℝ × ℝ × ℝ :=
  let angle_deg := angle_of_attack * 180 / Real.pi
  let ABC := isherwoodABC angle_deg
  let A := ABC.1
  let B := ABC.2.1
  let C := ABC.2.2
  let bow_centroid_distance := Loa / 2 - s_L
  let C_X := -(A.getD 0 0 +
      A.getD 1 0 * ((2 * lateral_area) / Loa ^ 2) +
      A.getD 2 0 * ((2 * frontal_area) / breadth ^ 2) +
      A.getD 3 0 * (Loa / breadth) +
      A.getD 4 0 * (S / Loa) +
      A.getD 5 0 * (bow_centroid_distance / Loa) +
      A.getD 6 0 * masts)
  let C_Y := -(B.getD 0 0 +
      B.getD 1 0 * ((2 * lateral_area) / Loa ^ 2) +
      B.getD 2 0 * ((2 * frontal_area) / breadth ^ 2) +
      B.getD 3 0 * (Loa / breadth) +
      B.getD 4 0 * (S / Loa) +
      B.getD 5 0 * (bow_centroid_distance / Loa) +
      B.getD 6 0 * (superstructure_area / lateral_area))
  let C_N := C.getD 0 0 +
      C.getD 1 0 * ((2 * lateral_area) / Loa ^ 2) +
      C.getD 2 0 * ((2 * frontal_area) / breadth ^ 2) +
      C.getD 3 0 * (Loa / breadth) +
      C.getD 4 0 * (S / Loa) +
      C.getD 5 0 * (bow_centroid_distance / Loa)
  (C_X, C_Y, C_N)

/-- The body of wind_coefficients.blendermann once the table row has
been found: branch on bow-on versus stern-on wind, form the
cross-force denominator, and assemble the surge, sway and yaw
coefficients.  The rolling coefficient C_K is computed by the source
but never returned. -/
def blendermann_calc (row : BlendermannRow) (frontal_area lateral_area Loa s_L
    angle_of_attack : ℝ) : ℝ × ℝ × ℝ :=
  let CDt : ℝ := (row.CDt : ℝ)
  let CDl := if |angle_of_attack| ≤ Real.pi / 2
    then (row.CDl_0 : ℝ) * (frontal_area / lateral_area)
    else (row.CDl_pi : ℝ) * (frontal_area / lateral_area)
  let denominator := 1 - 0.5 * (row.delta : ℝ) * (1 - CDl / CDt) *
      (Real.sin (2 * angle_of_attack)) ^ 2
  let C_X := -CDl * (lateral_area / frontal_area) * Real.cos angle_of_attack / denominator
  let C_Y := -CDt * Real.sin angle_of_attack / denominator
  let C_K := (row.kappa : ℝ) * C_Y
  let C_N := (s_L / Loa - 0.18 * (angle_of_attack - Real.pi / 2)) * C_Y
  (C_X, C_Y, C_N)

/-- Embedding of wind_coefficients.blendermann.  When no table row
matches the vessel type, the Python loop leaves the coefficient
variables unbound and the function dies with a NameError; that hard
failure is modelled as none. -/
def blendermann (vessel_type : String) (frontal_area lateral_area Loa s_L
    angle_of_attack : ℝ) : Option (ℝ × ℝ × ℝ) :=
  (lookupRow vessel_type).map
    (fun row => blendermann_calc row frontal_area lateral_area Loa s_L angle_of_attack)

/-- Embedding of wind_forces.calculate_rho_w: the quintic polynomial
regression of air density against temperature in degrees Celsius. -/
def calculate_rho_w (temperature : ℝ) : ℝ :=
  3.318 * (10 : ℝ) ^ (-12 : ℤ) * temperature ^ 5 +
    1.172 * (10 : ℝ) ^ (-10 : ℤ) * temperature ^ 4 -
    6.845 * (10 : ℝ) ^ (-8 : ℤ) * temperature ^ 3 +
    1.744 * (10 : ℝ) ^ (-5 : ℤ) * temperature ^ 2 -
    4.728 * (10 : ℝ) ^ (-3 : ℤ) * temperature + 1.292

/-- Modelled from the spec: the air-density polynomial exactly as the
specification writes it, rho_w(T) = 3.318e-12 T^5 + 1.172e-10 T^4 -
6.845e-8 T^3 + 1.744e-5 T^2 - 4.728e-3 T + 1.292, to be compared with
the source formula calculate_rho_w. -/
def rho_w_spec_poly (T : ℝ) : ℝ :=
  3.318e-12 * T ^ 5 + 1.172e-10 * T ^ 4 - 6.845e-8 * T ^ 3 +
    1.744e-5 * T ^ 2 - 4.728e-3 * T + 1.292

/-- Two-argument arctangent with the numpy convention: arctan2 y x is
the argument of the complex number x + y i, in the interval (-pi, pi]. -/
def arctan2 (y x : ℝ) : ℝ := Complex.arg ⟨x, y⟩

/-- The wind-velocity surge component of wind_forces_and_moment
(wind_forces.py line 42). -/
def wind_speed_surge (wind_speed wind_direction vessel_heading : ℝ) : ℝ :=
  wind_speed * Real.cos (wind_direction - vessel_heading)

/-- The wind-velocity sway component of wind_forces_and_moment
(wind_forces.py line 43). -/
def wind_speed_sway (wind_speed wind_direction vessel_heading : ℝ) : ℝ :=
  wind_speed * Real.sin (wind_direction - vessel_heading)

/-- The relative-velocity surge component of wind_forces_and_moment
(wind_forces.py line 44): vessel speed minus wind component. -/
def relative_velocity_surge (wind_speed wind_direction vessel_heading
    vessel_speed_surge : ℝ) : ℝ :=
  vessel_speed_surge - wind_speed_surge wind_speed wind_direction vessel_heading

/-- The relative-velocity sway component of wind_forces_and_moment
(wind_forces.py line 45): vessel speed minus wind component. -/
def relative_velocity_sway (wind_speed wind_direction vessel_heading
    vessel_speed_sway : ℝ) : ℝ :=
  vessel_speed_sway - wind_speed_sway wind_speed wind_direction vessel_heading

/-- The relative wind speed of wind_forces_and_moment (wind_forces.py
line 46): the Euclidean norm of the two relative-velocity components. -/
def relative_wind_speed (wind_speed wind_direction vessel_heading
    vessel_speed_surge vessel_speed_sway : ℝ) : ℝ :=
  Real.sqrt
    (relative_velocity_surge wind_speed wind_direction vessel_heading vessel_speed_surge ^ 2 +
     relative_velocity_sway wind_speed wind_direction vessel_heading vessel_speed_sway ^ 2)

/-- The angle of attack of wind_forces_and_moment (wind_forces.py
line 49): the wind-is-coming-from angle
arctan2(relative_sway, relative_surge) + pi. -/
def angle_of_attack (wind_speed wind_direction vessel_heading
    vessel_speed_surge vessel_speed_sway : ℝ) : ℝ :=
  arctan2 (relative_velocity_sway wind_speed wind_direction vessel_heading vessel_speed_sway)
      (relative_velocity_surge wind_speed wind_direction vessel_heading vessel_speed_surge) +
    Real.pi

/-- The coefficient-dispatch block of wind_forces_and_moment
(wind_forces.py lines 52-64).  With Blendermann selected and no vessel
type, or with Isherwood selected and any of the four extra parameters
absent, the source prints a warning and substitutes the
zero-coefficient triple.  With the hughes member selected no branch
assigns the coefficients and the Python dies with a NameError,
modelled as none; an unknown Blendermann vessel type propagates the
same way from blendermann. -/
def wind_coefficients_dispatch (coeffs : CoefficientType) (vessel_type : Option String)
    (frontal_area lateral_area : ℝ) (superstructure_area : Option ℝ) (Loa : ℝ)
    (breadth S : Option ℝ) (s_L : ℝ) (masts : Option ℝ)
    (angle_of_attack : ℝ) : Option (ℝ × ℝ × ℝ) :=
  match coeffs with
  | CoefficientType.blendermann =>
    match vessel_type with
    | none => some (0, 0, 0)
    | some vt => blendermann vt frontal_area lateral_area Loa s_L angle_of_attack
  | CoefficientType.isherwood =>
    match superstructure_area, breadth, S, masts with
    | some sa, some b, some s, some m =>
      some (isherwood frontal_area lateral_area sa Loa b s s_L m angle_of_attack)
    | _, _, _, _ => some (0, 0, 0)
  | CoefficientType.hughes => none

/-- Embedding of wind_forces.wind_forces_and_moment: air density from
temperature, relative wind kinematics, coefficient dispatch, dynamic
pressure and the final force/moment triple in kN and kNm. -/
def wind_forces_and_moment (wind_speed wind_direction frontal_area lateral_area Loa s_L : ℝ)
    (coeffs : CoefficientType) (vessel_type : Option String)
    (superstructure_area breadth S masts : Option ℝ)
    (temperature vessel_heading vessel_speed_surge vessel_speed_sway : ℝ) :
    Option (ℝ × ℝ × ℝ) :=
  let rho_w := calculate_rho_w temperature
  (wind_coefficients_dispatch coeffs vessel_type frontal_area lateral_area
      superstructure_area Loa breadth S s_L masts
      (angle_of_attack wind_speed wind_direction vessel_heading
        vessel_speed_surge vessel_speed_sway)).map
    (fun C =>
      let q := 0.5 * rho_w *
        relative_wind_speed wind_speed wind_direction vessel_heading
          vessel_speed_surge vessel_speed_sway ^ 2
      ((10 : ℝ) ^ (-3 : ℤ) * q * C.1 * frontal_area,
       (10 : ℝ) ^ (-3 : ℤ) * q * C.2.1 * lateral_area,
       (10 : ℝ) ^ (-3 : ℤ) * q * C.2.2 * lateral_area * Loa))

end

/-- Casting the sample points from the rationals to the reals commutes
with interpolation. -/
theorem interp_ratCast (x : ℚ) (pts : List (ℚ × ℚ)) :
    interp (x : ℝ) (pts.map (fun p => ((p.1 : ℝ), (p.2 : ℝ)))) = ((interp x pts : ℚ) : ℝ) := by
  induction pts with
  | nil => simp [interp]
  | cons hd tl ih =>
    obtain ⟨a, b⟩ := hd
    cases tl with
    | nil => simp [interp]
    | cons hd2 tl2 =>
      obtain ⟨c, d⟩ := hd2
      simp only [List.map_cons] at ih ⊢
      rw [show interp (x : ℝ) (((a : ℝ), (b : ℝ)) :: ((c : ℝ), (d : ℝ)) ::
            tl2.map (fun p => ((p.1 : ℝ), (p.2 : ℝ)))) =
          (if (x : ℝ) ≤ (a : ℝ) then (b : ℝ)
           else if (x : ℝ) ≤ (c : ℝ) then (b : ℝ) + ((d : ℝ) - b) * ((x : ℝ) - a) / ((c : ℝ) - a)
           else interp (x : ℝ) (((c : ℝ), (d : ℝ)) :: tl2.map (fun p => ((p.1 : ℝ), (p.2 : ℝ)))))
        from rfl]
      rw [show interp x ((a, b) :: (c, d) :: tl2) =
          (if x ≤ a then b
           else if x ≤ c then b + (d - b) * (x - a) / (c - a)
           else interp x ((c, d) :: tl2)) from rfl]
      rcases le_or_lt x a with h1 | h1
      · rw [if_pos h1, if_pos (by exact_mod_cast h1)]
      · rw [if_neg (by exact_mod_cast h1.not_le), if_neg h1.not_le]
        rcases le_or_lt x c with h2 | h2
        · rw [if_pos h2, if_pos (by exact_mod_cast h2)]
          push_cast
          ring
        · rw [if_neg (by exact_mod_cast h2.not_le), if_neg h2.not_le, ih]

/-- Restatement of interp_ratCast through ratPoints. -/
theorem interp_ratPoints (x : ℚ) (pts : List (ℚ × ℚ)) :
    interp (x : ℝ) (ratPoints pts) = ((interp x pts : ℚ) : ℝ) :=
  interp_ratCast x pts

/-- Below (or at) the first sample point, interpolation returns the first
sample value. -/
theorem interp_le_head {α : Type} [LinearOrderedField α] {x x0 y0 : α}
    (rest : List (α × α)) (h : x ≤ x0) : interp x ((x0, y0) :: rest) = y0 := by
  cases rest with
  | nil => rfl
  | cons hd tl =>
    obtain ⟨x1, y1⟩ := hd
    rw [show interp x ((x0, y0) :: (x1, y1) :: tl) =
        (if x ≤ x0 then y0
         else if x ≤ x1 then y0 + (y1 - y0) * (x - x0) / (x1 - x0)
         else interp x ((x1, y1) :: tl)) from rfl]
    rw [if_pos h]

/-- At (or above) the last sample point, interpolation returns the last
sample value, provided every earlier sample abscissa lies strictly
below x. -/
theorem interp_ge_last {α : Type} [LinearOrderedField α] (x : α) :
    ∀ (pts : List (α × α)) (xl yl : α),
      (∀ p ∈ pts, p.1 < x) → xl ≤ x →
      interp x (pts ++ [(xl, yl)]) = yl := by
  intro pts
  induction pts with
  | nil =>
    intro xl yl _ _
    rfl
  | cons hd tl ih =>
    intro xl yl hmem hxl
    obtain ⟨a, b⟩ := hd
    have ha : a < x := hmem (a, b) (by simp)
    cases tl with
    | nil =>
      rw [show ((a, b) :: ([] : List (α × α))) ++ [(xl, yl)] = [(a, b), (xl, yl)] from rfl]
      rw [show interp x [(a, b), (xl, yl)] =
          (if x ≤ a then b
           else if x ≤ xl then b + (yl - b) * (x - a) / (xl - a)
           else interp x [(xl, yl)]) from rfl]
      rw [if_neg ha.not_le]
      rcases le_or_lt x xl with h2 | h2
      · have hx : x = xl := le_antisymm h2 hxl
        rw [if_pos h2, hx, mul_div_assoc, div_self (sub_ne_zero.mpr (hx ▸ ha).ne'), mul_one]
        ring
      · rw [if_neg h2.not_le]
        rfl
    | cons hd2 tl2 =>
      obtain ⟨c, d⟩ := hd2
      have hc : c < x := hmem (c, d) (by simp)
      rw [show ((a, b) :: (c, d) :: tl2) ++ [(xl, yl)] =
          (a, b) :: (c, d) :: (tl2 ++ [(xl, yl)]) from rfl]
      rw [show interp x ((a, b) :: (c, d) :: (tl2 ++ [(xl, yl)])) =
          (if x ≤ a then b
           else if x ≤ c then b + (d - b) * (x - a) / (c - a)
           else interp x ((c, d) :: (tl2 ++ [(xl, yl)]))) from rfl]
      rw [if_neg ha.not_le, if_neg hc.not_le]
      rw [show (c, d) :: (tl2 ++ [(xl, yl)]) = ((c, d) :: tl2) ++ [(xl, yl)] from rfl]
      exact ih xl yl (fun p hp => hmem p (List.mem_cons_of_mem _ hp)) hxl

/-- Dropping the first sample point when x lies beyond the first two
abscissas. -/
theorem interp_step {α : Type} [LinearOrderedField α] {x x0 y0 x1 y1 : α}
    {rest : List (α × α)} (h0 : ¬ x ≤ x0) (h1 : ¬ x ≤ x1) :
    interp x ((x0, y0) :: (x1, y1) :: rest) = interp x ((x1, y1) :: rest) := by
  rw [show interp x ((x0, y0) :: (x1, y1) :: rest) =
      (if x ≤ x0 then y0
       else if x ≤ x1 then y0 + (y1 - y0) * (x - x0) / (x1 - x0)
       else interp x ((x1, y1) :: rest)) from rfl]
  rw [if_neg h0, if_neg h1]

/-- The two-point linear interpolation formula on the bracketing
segment. -/
theorem interp_middle {α : Type} [LinearOrderedField α] {x x0 y0 x1 y1 : α}
    {rest : List (α × α)} (h0 : ¬ x ≤ x0) (h1 : x ≤ x1) :
    interp x ((x0, y0) :: (x1, y1) :: rest) = y0 + (y1 - y0) * (x - x0) / (x1 - x0) := by
  rw [show interp x ((x0, y0) :: (x1, y1) :: rest) =
      (if x ≤ x0 then y0
       else if x ≤ x1 then y0 + (y1 - y0) * (x - x0) / (x1 - x0)
       else interp x ((x1, y1) :: rest)) from rfl]
  rw [if_neg h0, if_pos h1]

/-- Interpolation at a sample abscissa returns that sample's value,
provided the abscissas are strictly increasing. -/
theorem interp_knot {α : Type} [LinearOrderedField α] (x y : α) :
    ∀ (pts : List (α × α)), (pts.map Prod.fst).Pairwise (· < ·) → (x, y) ∈ pts →
      interp x pts = y := by
  intro pts
  induction pts with
  | nil =>
    intro _ h
    cases h
  | cons hd tl ih =>
    intro hpw hmem
    obtain ⟨a, b⟩ := hd
    rw [List.map_cons, List.pairwise_cons] at hpw
    obtain ⟨hlt, hpw'⟩ := hpw
    rcases List.mem_cons.mp hmem with heq | hmem'
    · obtain ⟨rfl, rfl⟩ := Prod.mk.injEq .. ▸ heq
      exact interp_le_head tl le_rfl
    · have hax : a < x := hlt x (List.mem_map_of_mem Prod.fst hmem')
      cases tl with
      | nil => cases hmem'
      | cons hd2 tl2 =>
        obtain ⟨c, d⟩ := hd2
        rw [show interp x ((a, b) :: (c, d) :: tl2) =
            (if x ≤ a then b
             else if x ≤ c then b + (d - b) * (x - a) / (c - a)
             else interp x ((c, d) :: tl2)) from rfl]
        rw [if_neg hax.not_le]
        rcases List.mem_cons.mp hmem' with heq2 | hmem2
        · obtain ⟨rfl, rfl⟩ := Prod.mk.injEq .. ▸ heq2
          rw [if_pos le_rfl, mul_div_assoc, div_self (sub_ne_zero.mpr hax.ne'), mul_one]
          ring
        · have hpw2 := hpw'
          rw [List.map_cons, List.pairwise_cons] at hpw2
          have hcx : c < x := hpw2.1 x (List.mem_map_of_mem Prod.fst hmem2)
          rw [if_neg hcx.not_le]
          exact ih hpw' hmem'

/-- Column extraction keeps the angle abscissas of the table. -/
theorem column_fst (t : List (ℚ × List ℚ)) (i : ℕ) :
    (column t i).map Prod.fst = t.map Prod.fst := by
  simp [column, List.map_map]

/-- The surge-table angles are strictly increasing. -/
theorem surge_angles_pairwise : (surge_coefficients.map Prod.fst).Pairwise (· < ·) := by
  decide

/-- The sway-table angles are strictly increasing. -/
theorem sway_angles_pairwise : (sway_coefficients.map Prod.fst).Pairwise (· < ·) := by
  decide

/-- The yaw-table angles are strictly increasing. -/
theorem yaw_angles_pairwise : (yaw_coefficients.map Prod.fst).Pairwise (· < ·) := by
  decide

/-- Column interpolation of a breakpoint table is exact at every row of
the table, provided the table's angles are strictly increasing. -/
theorem interp_col_knot {t : List (ℚ × List ℚ)}
    (hpw : (t.map Prod.fst).Pairwise (· < ·)) {a : ℚ} {l : List ℚ}
    (hmem : (a, l) ∈ t) (i : ℕ) :
    interp a (column t i) = l.getD i 0 :=
  interp_knot a (l.getD i 0) (column t i)
    (by rw [column_fst]; exact hpw)
    (List.mem_map_of_mem (fun r => (r.1, r.2.getD i 0)) hmem)

/-- Claim C7: calculate_rho_w is exactly the quintic polynomial
3.318e-12 T^5 + 1.172e-10 T^4 - 6.845e-8 T^3 + 1.744e-5 T^2
- 4.728e-3 T + 1.292 with exactly these six coefficients for every
temperature, and at T = 20 it evaluates to 1.2038977696, which is
approximately 1.2041 kg per cubic metre (within 0.001). -/
theorem calculate_rho_w_matches_spec_poly :
    (∀ T : ℝ, calculate_rho_w T = rho_w_spec_poly T) ∧
    calculate_rho_w 20 = 1.2038977696 ∧
    |calculate_rho_w 20 - 1.2041| < 0.001 := by
  have h : ∀ T : ℝ, calculate_rho_w T = rho_w_spec_poly T := by
    intro T
    unfold calculate_rho_w rho_w_spec_poly
    norm_num
  refine ⟨h, ?_, ?_⟩
  · unfold calculate_rho_w
    norm_num
  · unfold calculate_rho_w
    rw [abs_lt]
    constructor <;> norm_num

/-- Claim C9: the triple returned by the Blendermann calculation does
not depend on the kappa column of the matched row: replacing kappa by
any other value leaves the output unchanged, since kappa only feeds
the rolling coefficient C_K, which is computed and discarded. -/
theorem blendermann_independent_of_kappa (row : BlendermannRow) (k : ℚ)
    (frontal_area lateral_area Loa s_L aoa : ℝ) :
    blendermann_calc { row with kappa := k } frontal_area lateral_area Loa s_L aoa =
      blendermann_calc row frontal_area lateral_area Loa s_L aoa := rfl

/-- Claim C3: the Blendermann table has 17 entries, and for every
vessel-type string matching none of them the lookup-and-calculate
pipeline dies hard (modelled as none, for the NameError the source
raises when the loop never binds the coefficients) instead of falling
back to any default row. -/
theorem blendermann_unknown_vessel_type_fails :
    coefficient_table.length = 17 ∧
    ∀ (vt : String), (∀ row ∈ coefficient_table, row.name ≠ vt) →
      ∀ (frontal_area lateral_area Loa s_L aoa : ℝ),
        blendermann vt frontal_area lateral_area Loa s_L aoa = none := by
  refine ⟨rfl, ?_⟩
  intro vt h fa la Loa sl aoa
  unfold blendermann lookupRow
  rw [List.find?_eq_none.mpr]
  · rfl
  · intro row hrow
    simp only [beq_iff_eq]
    exact h row hrow

/-- Witness for claim C3 at the concrete vessel type Sailboat, absent
from the table. -/
theorem blendermann_unknown_vessel_type_fails_witness :
    blendermann "Sailboat" 1 1 1 1 1 = none :=
  blendermann_unknown_vessel_type_fails.2 "Sailboat" (by decide) 1 1 1 1 1

/-- Claim C2 (code behavior at the failing input): with Isherwood
selected and masts absent, wind_forces_and_moment does not fail with a
missing-parameter error; it substitutes the zero-coefficient triple
and returns the zero force/moment vector. -/
theorem wind_forces_isherwood_missing_masts_returns_zero :
    wind_forces_and_moment 10 0 530 1500 107.5 11.5 CoefficientType.isherwood none
      (some (1500 / 9)) (some 35) (some 107.5) none 20 0 0 0 = some (0, 0, 0) := by
  unfold wind_forces_and_moment wind_coefficients_dispatch
  simp

/-- Claim C1 (counterexample): at wind_speed 1, wind_direction 0,
vessel_heading 0 and vessel_speed_surge 0, the relative surge velocity
computed by the source is -1, not the wind component minus the vessel
speed (which is 1): the source subtracts the wind component from the
vessel speed, not the other way around. -/
theorem relative_velocity_is_not_wind_minus_vessel :
    relative_velocity_surge 1 0 0 0 ≠ wind_speed_surge 1 0 0 - 0 := by
  unfold relative_velocity_surge wind_speed_surge
  norm_num

/-- Claim C1 (amended): wind_forces_and_moment decomposes the true
wind into surge/sway components relative to the vessel heading,
subtracts them from the vessel's surge/sway speed (relative = vessel
speed minus wind component), takes the relative wind speed as the
Euclidean norm of the two components, and passes angle_of_attack =
arctan2(relative_sway, relative_surge) + pi to the selected
coefficient model. -/
theorem wind_forces_relative_wind_kinematics
    (ws wd fa la Loa sl : ℝ) (coeffs : CoefficientType) (vt : Option String)
    (sa b S m : Option ℝ) (T psi u v : ℝ) :
    relative_velocity_surge ws wd psi u = u - ws * Real.cos (wd - psi) ∧
    relative_velocity_sway ws wd psi v = v - ws * Real.sin (wd - psi) ∧
    relative_wind_speed ws wd psi u v =
      Real.sqrt ((relative_velocity_surge ws wd psi u) ^ 2 +
        (relative_velocity_sway ws wd psi v) ^ 2) ∧
    angle_of_attack ws wd psi u v =
      arctan2 (v - ws * Real.sin (wd - psi)) (u - ws * Real.cos (wd - psi)) + Real.pi ∧
    wind_forces_and_moment ws wd fa la Loa sl coeffs vt sa b S m T psi u v =
      (wind_coefficients_dispatch coeffs vt fa la sa Loa b S sl m
          (arctan2 (v - ws * Real.sin (wd - psi)) (u - ws * Real.cos (wd - psi)) + Real.pi)).map
        (fun C =>
          ((10 : ℝ) ^ (-3 : ℤ) * (0.5 * calculate_rho_w T *
              relative_wind_speed ws wd psi u v ^ 2) * C.1 * fa,
           (10 : ℝ) ^ (-3 : ℤ) * (0.5 * calculate_rho_w T *
              relative_wind_speed ws wd psi u v ^ 2) * C.2.1 * la,
           (10 : ℝ) ^ (-3 : ℤ) * (0.5 * calculate_rho_w T *
              relative_wind_speed ws wd psi u v ^ 2) * C.2.2 * la * Loa)) :=
  ⟨rfl, rfl, rfl, rfl, rfl⟩

/-- Claim C4: for the Offshore supply vessel row, geometry
frontal_area 530, lateral_area 1500, Loa 107.5, s_L 11.5 and stern
wind (angle of attack pi), the calculation takes the stern-on branch
(|pi| > pi/2), C_Y vanishes because sin pi = 0, and C_X = 0.8 is
produced by CDl_pi alone: the CDl_0 entry of the row can be replaced
by any value without changing the result. -/
theorem blendermann_osv_stern_wind :
    (∀ c0 : ℚ,
      blendermann_calc ⟨"Offshore supply vessel", 0.90, c0, 0.80, 0.55, 1.2⟩
        530 1500 107.5 11.5 Real.pi = ((0.8 : ℝ), 0, 0)) ∧
    blendermann "Offshore supply vessel" 530 1500 107.5 11.5 Real.pi =
      some ((0.8 : ℝ), 0, 0) := by
  have habs : ¬ |Real.pi| ≤ Real.pi / 2 := by
    rw [abs_of_pos Real.pi_pos]
    exact (half_lt_self Real.pi_pos).not_le
  have h : ∀ c0 : ℚ,
      blendermann_calc ⟨"Offshore supply vessel", 0.90, c0, 0.80, 0.55, 1.2⟩
        530 1500 107.5 11.5 Real.pi = ((0.8 : ℝ), 0, 0) := by
    intro c0
    simp only [blendermann_calc]
    rw [if_neg habs]
    simp only [Real.sin_pi, Real.cos_pi, Real.sin_two_pi]
    norm_num
  refine ⟨h, ?_⟩
  unfold blendermann
  rw [show lookupRow "Offshore supply vessel" =
      some ⟨"Offshore supply vessel", 0.90, 0.55, 0.80, 0.55, 1.2⟩ from rfl]
  rw [Option.map_some']
  exact congrArg some (h 0.55)

/-- Claim C6: at every breakpoint angle (0, 10, ..., 180 degrees) the
Isherwood per-column interpolation returns exactly that angle's table
row for all three tables; in particular the surge table at 90 degrees
gives A0 = 0.355 and A4 = -0.247; and the interpolated vectors hold 7
surge, 7 sway and 6 yaw coefficients. -/
theorem isherwood_interpolation_exact_at_knots :
    (∀ r ∈ surge_coefficients, ∀ i : ℕ,
      interp r.1 (column surge_coefficients i) = r.2.getD i 0) ∧
    (∀ r ∈ sway_coefficients, ∀ i : ℕ,
      interp r.1 (column sway_coefficients i) = r.2.getD i 0) ∧
    (∀ r ∈ yaw_coefficients, ∀ i : ℕ,
      interp r.1 (column yaw_coefficients i) = r.2.getD i 0) ∧
    interp (90 : ℚ) (column surge_coefficients 0) = 0.355 ∧
    interp (90 : ℚ) (column surge_coefficients 4) = -0.247 ∧
    (∀ d : ℝ, (isherwoodABC d).1.length = 7 ∧ (isherwoodABC d).2.1.length = 7 ∧
      (isherwoodABC d).2.2.length = 6) := by
  have hs : ∀ r ∈ surge_coefficients, ∀ i : ℕ,
      interp r.1 (column surge_coefficients i) = r.2.getD i 0 := by
    intro r hr i
    obtain ⟨a, l⟩ := r
    exact interp_col_knot surge_angles_pairwise hr i
  have hw : ∀ r ∈ sway_coefficients, ∀ i : ℕ,
      interp r.1 (column sway_coefficients i) = r.2.getD i 0 := by
    intro r hr i
    obtain ⟨a, l⟩ := r
    exact interp_col_knot sway_angles_pairwise hr i
  have hy : ∀ r ∈ yaw_coefficients, ∀ i : ℕ,
      interp r.1 (column yaw_coefficients i) = r.2.getD i 0 := by
    intro r hr i
    obtain ⟨a, l⟩ := r
    exact interp_col_knot yaw_angles_pairwise hr i
  refine ⟨hs, hw, hy, ?_, ?_, ?_⟩
  · have := hs (90, [0.355, 0, 0, 0, -0.247, 0, 0.018]) (by simp [surge_coefficients]) 0
    simpa using this
  · have := hs (90, [0.355, 0, 0, 0, -0.247, 0, 0.018]) (by simp [surge_coefficients]) 4
    simpa using this
  · intro d
    refine ⟨?_, ?_, ?_⟩ <;> simp [isherwoodABC]

/-- Witness for claim C6 at the surge row for 90 degrees and the first
coefficient column. -/
theorem isherwood_interpolation_exact_at_knots_witness :
    interp (90 : ℚ) (column surge_coefficients 0) =
      ([0.355, 0, 0, 0, -0.247, 0, 0.018] : List ℚ).getD 0 0 :=
  isherwood_interpolation_exact_at_knots.1 (90, [0.355, 0, 0, 0, -0.247, 0, 0.018])
    (by simp [surge_coefficients]) 0

/-- The surge-column interpolation at 45 degrees falls on the segment
between the 40 and 50 degree rows. -/
theorem interp45_surge (i : ℕ) :
    interp (45 : ℚ) (column surge_coefficients i) =
      ([2.333, -5.99, 0.247, -0.190, 0, 0, 0.042] : List ℚ).getD i 0 +
        (([1.726, -6.54, 0.189, -0.173, 0.348, 0, 0.048] : List ℚ).getD i 0 -
          ([2.333, -5.99, 0.247, -0.190, 0, 0, 0.042] : List ℚ).getD i 0) *
          (45 - 40) / (50 - 40) := by
  simp only [column, surge_coefficients, List.map_cons, List.map_nil]
  rw [interp_step (by norm_num) (by norm_num), interp_step (by norm_num) (by norm_num),
    interp_step (by norm_num) (by norm_num), interp_step (by norm_num) (by norm_num),
    interp_middle (by norm_num) (by norm_num)]

/-- The sway-column interpolation at 45 degrees falls on the segment
between the 40 and 50 degree rows. -/
theorem interp45_sway (i : ℕ) :
    interp (45 : ℚ) (column sway_coefficients i) =
      ([0.329, 1.82, 0, 0.043, 0, -0.59, 0] : List ℚ).getD i 0 +
        (([1.164, 1.26, 0.121, 0, -0.242, -0.95, 0] : List ℚ).getD i 0 -
          ([0.329, 1.82, 0, 0.043, 0, -0.59, 0] : List ℚ).getD i 0) *
          (45 - 40) / (50 - 40) := by
  simp only [column, sway_coefficients, List.map_cons, List.map_nil]
  rw [interp_step (by norm_num) (by norm_num), interp_step (by norm_num) (by norm_num),
    interp_step (by norm_num) (by norm_num), interp_step (by norm_num) (by norm_num),
    interp_middle (by norm_num) (by norm_num)]

/-- The yaw-column interpolation at 45 degrees falls on the segment
between the 40 and 50 degree rows. -/
theorem interp45_yaw (i : ℕ) :
    interp (45 : ℚ) (column yaw_coefficients i) =
      ([0.2017, 0.457, 0, 0.0067, 0, -0.472] : List ℚ).getD i 0 +
        (([0.1759, 0.573, 0, 0.0118, 0, -0.523] : List ℚ).getD i 0 -
          ([0.2017, 0.457, 0, 0.0067, 0, -0.472] : List ℚ).getD i 0) *
          (45 - 40) / (50 - 40) := by
  simp only [column, yaw_coefficients, List.map_cons, List.map_nil]
  rw [interp_step (by norm_num) (by norm_num), interp_step (by norm_num) (by norm_num),
    interp_step (by norm_num) (by norm_num), interp_step (by norm_num) (by norm_num),
    interp_middle (by norm_num) (by norm_num)]

/-- Claim C8 (counterexample): for the surge column A5 the breakpoint
values at 40 and 50 degrees are both 0 and the interpolated value at
45 degrees is 0, so the value at 45 degrees does not lie strictly
between the two breakpoint values. -/
theorem isherwood_interp45_not_strictly_between :
    interp (40 : ℚ) (column surge_coefficients 5) = 0 ∧
    interp (50 : ℚ) (column surge_coefficients 5) = 0 ∧
    interp (45 : ℚ) (column surge_coefficients 5) = 0 ∧
    ¬ strictlyBetween (interp (40 : ℚ) (column surge_coefficients 5))
        (interp (50 : ℚ) (column surge_coefficients 5))
        (interp (45 : ℚ) (column surge_coefficients 5)) := by
  have h40 : interp (40 : ℚ) (column surge_coefficients 5) = 0 := by
    have := interp_col_knot surge_angles_pairwise
      (show ((40 : ℚ), ([2.333, -5.99, 0.247, -0.190, 0, 0, 0.042] : List ℚ)) ∈
        surge_coefficients by simp [surge_coefficients]) 5
    simpa using this
  have h50 : interp (50 : ℚ) (column surge_coefficients 5) = 0 := by
    have := interp_col_knot surge_angles_pairwise
      (show ((50 : ℚ), ([1.726, -6.54, 0.189, -0.173, 0.348, 0, 0.048] : List ℚ)) ∈
        surge_coefficients by simp [surge_coefficients]) 5
    simpa using this
  have h45 : interp (45 : ℚ) (column surge_coefficients 5) = 0 := by
    rw [interp45_surge]
    norm_num
  refine ⟨h40, h50, h45, ?_⟩
  rw [h40, h50, h45]
  simp [strictlyBetween]

/-- Claim C8 (amended): for every coefficient column of the three
Isherwood tables, the interpolated value at 45 degrees lies between
the breakpoint values at 40 and 50 degrees inclusive, and strictly
between them whenever those two breakpoint values differ. -/
theorem isherwood_interp45_between (i : ℕ) :
    (i < 7 →
      (weaklyBetween (interp (40 : ℚ) (column surge_coefficients i))
          (interp (50 : ℚ) (column surge_coefficients i))
          (interp (45 : ℚ) (column surge_coefficients i)) ∧
        (interp (40 : ℚ) (column surge_coefficients i) ≠
            interp (50 : ℚ) (column surge_coefficients i) →
          strictlyBetween (interp (40 : ℚ) (column surge_coefficients i))
            (interp (50 : ℚ) (column surge_coefficients i))
            (interp (45 : ℚ) (column surge_coefficients i)))) ∧
      (weaklyBetween (interp (40 : ℚ) (column sway_coefficients i))
          (interp (50 : ℚ) (column sway_coefficients i))
          (interp (45 : ℚ) (column sway_coefficients i)) ∧
        (interp (40 : ℚ) (column sway_coefficients i) ≠
            interp (50 : ℚ) (column sway_coefficients i) →
          strictlyBetween (interp (40 : ℚ) (column sway_coefficients i))
            (interp (50 : ℚ) (column sway_coefficients i))
            (interp (45 : ℚ) (column sway_coefficients i))))) ∧
    (i < 6 →
      weaklyBetween (interp (40 : ℚ) (column yaw_coefficients i))
          (interp (50 : ℚ) (column yaw_coefficients i))
          (interp (45 : ℚ) (column yaw_coefficients i)) ∧
        (interp (40 : ℚ) (column yaw_coefficients i) ≠
            interp (50 : ℚ) (column yaw_coefficients i) →
          strictlyBetween (interp (40 : ℚ) (column yaw_coefficients i))
            (interp (50 : ℚ) (column yaw_coefficients i))
            (interp (45 : ℚ) (column yaw_coefficients i)))) := by
  have hs40 : interp (40 : ℚ) (column surge_coefficients i) =
      ([2.333, -5.99, 0.247, -0.190, 0, 0, 0.042] : List ℚ).getD i 0 :=
    interp_col_knot surge_angles_pairwise (by simp [surge_coefficients]) i
  have hs50 : interp (50 : ℚ) (column surge_coefficients i) =
      ([1.726, -6.54, 0.189, -0.173, 0.348, 0, 0.048] : List ℚ).getD i 0 :=
    interp_col_knot surge_angles_pairwise (by simp [surge_coefficients]) i
  have hw40 : interp (40 : ℚ) (column sway_coefficients i) =
      ([0.329, 1.82, 0, 0.043, 0, -0.59, 0] : List ℚ).getD i 0 :=
    interp_col_knot sway_angles_pairwise (by simp [sway_coefficients]) i
  have hw50 : interp (50 : ℚ) (column sway_coefficients i) =
      ([1.164, 1.26, 0.121, 0, -0.242, -0.95, 0] : List ℚ).getD i 0 :=
    interp_col_knot sway_angles_pairwise (by simp [sway_coefficients]) i
  have hy40 : interp (40 : ℚ) (column yaw_coefficients i) =
      ([0.2017, 0.457, 0, 0.0067, 0, -0.472] : List ℚ).getD i 0 :=
    interp_col_knot yaw_angles_pairwise (by simp [yaw_coefficients]) i
  have hy50 : interp (50 : ℚ) (column yaw_coefficients i) =
      ([0.1759, 0.573, 0, 0.0118, 0, -0.523] : List ℚ).getD i 0 :=
    interp_col_knot yaw_angles_pairwise (by simp [yaw_coefficients]) i
  constructor
  · intro hi
    rw [hs40, hs50, interp45_surge, hw40, hw50, interp45_sway]
    interval_cases i <;> norm_num [weaklyBetween, strictlyBetween]
  · intro hi
    rw [hy40, hy50, interp45_yaw]
    interval_cases i <;> norm_num [weaklyBetween, strictlyBetween]

/-- Witness for the amended claim C8 at the first surge column. -/
theorem isherwood_interp45_between_witness :
    weaklyBetween (interp (40 : ℚ) (column surge_coefficients 0))
      (interp (50 : ℚ) (column surge_coefficients 0))
      (interp (45 : ℚ) (column surge_coefficients 0)) :=
  (((isherwood_interp45_between 0).1 (by norm_num)).1).1

/-- When every sway column and every yaw column interpolates to zero
at an angle, the interpolated B and C vectors are all zeros. -/
theorem isherwoodABC_sway_yaw_zero (d : ℝ)
    (hB : ∀ i : ℕ, interp d (ratPoints (column sway_coefficients i)) = 0)
    (hC : ∀ i : ℕ, interp d (ratPoints (column yaw_coefficients i)) = 0) :
    (isherwoodABC d).2.1 = [0, 0, 0, 0, 0, 0, 0] ∧
    (isherwoodABC d).2.2 = [0, 0, 0, 0, 0, 0] := by
  constructor <;> simp [isherwoodABC, List.range_succ, hB, hC]

/-- Claim C10: for head-on wind (angle of attack 0) and stern-on wind
(angle of attack pi) and any positive geometry, the Isherwood model
returns C_Y = 0 and C_N = 0 exactly, because the 0 and 180 degree
rows of the sway and yaw tables are all zeros. -/
theorem isherwood_zero_sway_yaw_head_stern (fa la sa Loa b S sl m : ℝ)
    (hfa : 0 < fa) (hla : 0 < la) (hLoa : 0 < Loa) (hb : 0 < b) :
    ((isherwood fa la sa Loa b S sl m 0).2.1 = 0 ∧
      (isherwood fa la sa Loa b S sl m 0).2.2 = 0) ∧
    ((isherwood fa la sa Loa b S sl m Real.pi).2.1 = 0 ∧
      (isherwood fa la sa Loa b S sl m Real.pi).2.2 = 0) := by
  have hz7 : ∀ i : ℕ, (([0, 0, 0, 0, 0, 0, 0] : List ℚ)).getD i 0 = 0 := by
    intro i
    rcases i with _ | _ | _ | _ | _ | _ | _ | i <;> rfl
  have hz6 : ∀ i : ℕ, (([0, 0, 0, 0, 0, 0] : List ℚ)).getD i 0 = 0 := by
    intro i
    rcases i with _ | _ | _ | _ | _ | _ | i <;> rfl
  have hsw0 : ∀ i : ℕ, interp ((0 : ℚ) : ℝ) (ratPoints (column sway_coefficients i)) = 0 := by
    intro i
    rw [interp_ratPoints,
      interp_col_knot sway_angles_pairwise
        (show ((0 : ℚ), ([0, 0, 0, 0, 0, 0, 0] : List ℚ)) ∈ sway_coefficients by
          simp [sway_coefficients]) i,
      hz7 i]
    norm_num
  have hsw180 : ∀ i : ℕ, interp ((180 : ℚ) : ℝ) (ratPoints (column sway_coefficients i)) = 0 := by
    intro i
    rw [interp_ratPoints,
      interp_col_knot sway_angles_pairwise
        (show ((180 : ℚ), ([0, 0, 0, 0, 0, 0, 0] : List ℚ)) ∈ sway_coefficients by
          simp [sway_coefficients]) i,
      hz7 i]
    norm_num
  have hyw0 : ∀ i : ℕ, interp ((0 : ℚ) : ℝ) (ratPoints (column yaw_coefficients i)) = 0 := by
    intro i
    rw [interp_ratPoints,
      interp_col_knot yaw_angles_pairwise
        (show ((0 : ℚ), ([0, 0, 0, 0, 0, 0] : List ℚ)) ∈ yaw_coefficients by
          simp [yaw_coefficients]) i,
      hz6 i]
    norm_num
  have hyw180 : ∀ i : ℕ, interp ((180 : ℚ) : ℝ) (ratPoints (column yaw_coefficients i)) = 0 := by
    intro i
    rw [interp_ratPoints,
      interp_col_knot yaw_angles_pairwise
        (show ((180 : ℚ), ([0, 0, 0, 0, 0, 0] : List ℚ)) ∈ yaw_coefficients by
          simp [yaw_coefficients]) i,
      hz6 i]
    norm_num
  have hdeg0 : (0 : ℝ) * 180 / Real.pi = ((0 : ℚ) : ℝ) := by
    norm_num
  have hdeg180 : Real.pi * 180 / Real.pi = ((180 : ℚ) : ℝ) := by
    rw [mul_comm, mul_div_assoc, div_self Real.pi_ne_zero, mul_one]
    norm_num
  have habc0 := isherwoodABC_sway_yaw_zero ((0 : ℚ) : ℝ) hsw0 hyw0
  have habc180 := isherwoodABC_sway_yaw_zero ((180 : ℚ) : ℝ) hsw180 hyw180
  refine ⟨⟨?_, ?_⟩, ⟨?_, ?_⟩⟩
  · simp only [isherwood, hdeg0]
    rw [habc0.1]
    simp
  · simp only [isherwood, hdeg0]
    rw [habc0.2]
    simp
  · simp only [isherwood, hdeg180]
    rw [habc180.1]
    simp
  · simp only [isherwood, hdeg180]
    rw [habc180.2]
    simp

/-- Witness for claim C10 at unit geometry. -/
theorem isherwood_zero_sway_yaw_head_stern_witness :
    ((isherwood 1 1 1 1 1 1 1 1 0).2.1 = 0 ∧
      (isherwood 1 1 1 1 1 1 1 1 0).2.2 = 0) ∧
    ((isherwood 1 1 1 1 1 1 1 1 Real.pi).2.1 = 0 ∧
      (isherwood 1 1 1 1 1 1 1 1 Real.pi).2.2 = 0) :=
  isherwood_zero_sway_yaw_head_stern 1 1 1 1 1 1 1 1
    (by norm_num) (by norm_num) (by norm_num) (by norm_num)

/-- On the 19-point Isherwood angle grid, interpolation at or above the
last angle (180 degrees) returns the last sample value. -/
theorem interp_grid19_tail (x : ℝ) (hx : 180 ≤ x) (l : ℕ → ℝ) :
    interp x [(((0 : ℚ) : ℝ), l 0), (((10 : ℚ) : ℝ), l 1), (((20 : ℚ) : ℝ), l 2),
      (((30 : ℚ) : ℝ), l 3), (((40 : ℚ) : ℝ), l 4), (((50 : ℚ) : ℝ), l 5),
      (((60 : ℚ) : ℝ), l 6), (((70 : ℚ) : ℝ), l 7), (((80 : ℚ) : ℝ), l 8),
      (((90 : ℚ) : ℝ), l 9), (((100 : ℚ) : ℝ), l 10), (((110 : ℚ) : ℝ), l 11),
      (((120 : ℚ) : ℝ), l 12), (((130 : ℚ) : ℝ), l 13), (((140 : ℚ) : ℝ), l 14),
      (((150 : ℚ) : ℝ), l 15), (((160 : ℚ) : ℝ), l 16), (((170 : ℚ) : ℝ), l 17),
      (((180 : ℚ) : ℝ), l 18)] = l 18 := by
  have hlt : ∀ q : ℚ, q ≤ 170 → ¬ x ≤ (q : ℝ) := by
    intro q hq hle
    have h1 : (q : ℝ) ≤ 170 := by exact_mod_cast hq
    linarith
  rw [interp_step (hlt 0 (by norm_num)) (hlt 10 (by norm_num)),
    interp_step (hlt 10 (by norm_num)) (hlt 20 (by norm_num)),
    interp_step (hlt 20 (by norm_num)) (hlt 30 (by norm_num)),
    interp_step (hlt 30 (by norm_num)) (hlt 40 (by norm_num)),
    interp_step (hlt 40 (by norm_num)) (hlt 50 (by norm_num)),
    interp_step (hlt 50 (by norm_num)) (hlt 60 (by norm_num)),
    interp_step (hlt 60 (by norm_num)) (hlt 70 (by norm_num)),
    interp_step (hlt 70 (by norm_num)) (hlt 80 (by norm_num)),
    interp_step (hlt 80 (by norm_num)) (hlt 90 (by norm_num)),
    interp_step (hlt 90 (by norm_num)) (hlt 100 (by norm_num)),
    interp_step (hlt 100 (by norm_num)) (hlt 110 (by norm_num)),
    interp_step (hlt 110 (by norm_num)) (hlt 120 (by norm_num)),
    interp_step (hlt 120 (by norm_num)) (hlt 130 (by norm_num)),
    interp_step (hlt 130 (by norm_num)) (hlt 140 (by norm_num)),
    interp_step (hlt 140 (by norm_num)) (hlt 150 (by norm_num)),
    interp_step (hlt 150 (by norm_num)) (hlt 160 (by norm_num)),
    interp_step (hlt 160 (by norm_num)) (hlt 170 (by norm_num))]
  exact interp_ge_last x [(((170 : ℚ) : ℝ), l 17)] (((180 : ℚ) : ℝ)) (l 18)
    (by
      intro p hp
      rw [List.mem_singleton] at hp
      subst hp
      exact not_le.mp (hlt 170 (by norm_num)))
    (by
      have h180 : ((180 : ℚ) : ℝ) = (180 : ℝ) := by norm_num
      rw [h180]
      exact hx)

/-- Claim C5: for every angle at or below 0 degrees the Isherwood
per-column interpolation returns exactly the 0-degree breakpoint row,
and for every angle at or above 180 degrees exactly the 180-degree
row: the interpolation clamps at the edges rather than extrapolating,
and at the edges themselves it equals the first and last table rows
exactly. -/
theorem isherwood_interp_clamps (x : ℝ) (i : ℕ) :
    (x ≤ 0 →
      interp x (ratPoints (column surge_coefficients i)) =
        ((surge_coefficients.headI.2.getD i 0 : ℚ) : ℝ) ∧
      interp x (ratPoints (column sway_coefficients i)) =
        ((sway_coefficients.headI.2.getD i 0 : ℚ) : ℝ) ∧
      interp x (ratPoints (column yaw_coefficients i)) =
        ((yaw_coefficients.headI.2.getD i 0 : ℚ) : ℝ)) ∧
    (180 ≤ x →
      interp x (ratPoints (column surge_coefficients i)) =
        (((surge_coefficients.getLastD (0, [])).2.getD i 0 : ℚ) : ℝ) ∧
      interp x (ratPoints (column sway_coefficients i)) =
        (((sway_coefficients.getLastD (0, [])).2.getD i 0 : ℚ) : ℝ) ∧
      interp x (ratPoints (column yaw_coefficients i)) =
        (((yaw_coefficients.getLastD (0, [])).2.getD i 0 : ℚ) : ℝ)) := by
  constructor
  · intro hx
    have hle : ∀ q : ℚ, 0 ≤ q → x ≤ (q : ℝ) := by
      intro q hq
      have h1 : (0 : ℝ) ≤ (q : ℝ) := by exact_mod_cast hq
      linarith
    refine ⟨?_, ?_, ?_⟩
    · simp only [surge_coefficients, column, ratPoints, List.map_cons, List.map_nil,
        List.headI]
      exact interp_le_head _ (hle 0 le_rfl)
    · simp only [sway_coefficients, column, ratPoints, List.map_cons, List.map_nil,
        List.headI]
      exact interp_le_head _ (hle 0 le_rfl)
    · simp only [yaw_coefficients, column, ratPoints, List.map_cons, List.map_nil,
        List.headI]
      exact interp_le_head _ (hle 0 le_rfl)
  · intro hx
    refine ⟨?_, ?_, ?_⟩
    · rw [show surge_coefficients.getLastD (0, []) =
          ((180 : ℚ), ([-2.529, 3.76, -0.174, 0.128, 0, 1.55, 0] : List ℚ)) from rfl]
      simp only [surge_coefficients, column, ratPoints, List.map_cons, List.map_nil]
      exact interp_grid19_tail x hx
        (fun j => (((surge_coefficients.getD j (0, [])).2.getD i 0 : ℚ) : ℝ))
    · rw [show sway_coefficients.getLastD (0, []) =
          ((180 : ℚ), ([0, 0, 0, 0, 0, 0, 0] : List ℚ)) from rfl]
      simp only [sway_coefficients, column, ratPoints, List.map_cons, List.map_nil]
      exact interp_grid19_tail x hx
        (fun j => (((sway_coefficients.getD j (0, [])).2.getD i 0 : ℚ) : ℝ))
    · rw [show yaw_coefficients.getLastD (0, []) =
          ((180 : ℚ), ([0, 0, 0, 0, 0, 0] : List ℚ)) from rfl]
      simp only [yaw_coefficients, column, ratPoints, List.map_cons, List.map_nil]
      exact interp_grid19_tail x hx
        (fun j => (((yaw_coefficients.getD j (0, [])).2.getD i 0 : ℚ) : ℝ))

/-- Witness for claim C5 at the angles -1 and 181 degrees for the
first surge column. -/
theorem isherwood_interp_clamps_witness :
    interp (-1 : ℝ) (ratPoints (column surge_coefficients 0)) =
      ((surge_coefficients.headI.2.getD 0 0 : ℚ) : ℝ) ∧
    interp (181 : ℝ) (ratPoints (column surge_coefficients 0)) =
      (((surge_coefficients.getLastD (0, [])).2.getD 0 0 : ℚ) : ℝ) :=
  ⟨((isherwood_interp_clamps (-1) 0).1 (by norm_num)).1,
   ((isherwood_interp_clamps 181 0).2 (by norm_num)).1⟩
